import Mathlib

/-!
Shallow embedding of the ChittyContext runtime
(packages/runtime/src/index.ts and the Hono middleware), together with
theorems settling the specification claims about it.

JavaScript numbers that only ever carry integral scores and depths are
modelled as Int; machine-generated values (crypto.randomUUID, Date) are
passed in explicitly; the object-spread semantics of the source
(defaults first, then the options spread overriding them) is translated
field by field.
-/

namespace Chitty

/-- The five context grades of the runtime. -/
inductive Grade where
  | A
  | B
  | C
  | D
  | F
deriving DecidableEq, Repr

/-- Numeric rank of a grade, used to state monotonicity (F worst, A best). -/
def Grade.rank : Grade → Nat
  | .F => 0
  | .D => 1
  | .C => 2
  | .B => 3
  | .A => 4

/-- calculateGrade from index.ts: fixed thresholds on the trust score. -/
def calculateGrade (score : Int) : Grade :=
  if score ≥ 90 then .A
  else if score ≥ 75 then .B
  else if score ≥ 50 then .C
  else if score ≥ 25 then .D
  else .F

/-- A stored outcome record (ContextOutcome in index.ts). -/
structure ContextOutcome where
  id : String
  timestamp : String
  type : String
  action : String
  resource : String
  details : Option String := none
  scoreImpact : Int
deriving DecidableEq, Repr

/-- The core context entity (ChittyContext in index.ts). -/
structure ChittyContext where
  id : String
  chittyId : String
  type : String
  status : String
  grade : Grade
  trustScore : Int
  createdAt : String
  updatedAt : String
  expiresAt : Option String := none
  parentContextId : Option String := none
  rootContextId : Option String := none
  depth : Int
  sessionId : String
  requestId : String
  dnaFingerprint : Option String := none
  preferences : Option String := none
  source : String
  userAgent : Option String := none
  ipHash : Option String := none
  tags : Option (List String) := none
  outcomes : List ContextOutcome
deriving DecidableEq, Repr

/-- Partial context (the options argument of the factories): each field is
either absent from the object or present with a value. -/
structure ContextOptions where
  id : Option String := none
  chittyId : Option String := none
  type : Option String := none
  status : Option String := none
  grade : Option Grade := none
  trustScore : Option Int := none
  createdAt : Option String := none
  updatedAt : Option String := none
  expiresAt : Option String := none
  parentContextId : Option String := none
  rootContextId : Option String := none
  depth : Option Int := none
  sessionId : Option String := none
  requestId : Option String := none
  dnaFingerprint : Option String := none
  preferences : Option String := none
  source : Option String := none
  userAgent : Option String := none
  ipHash : Option String := none
  tags : Option (List String) := none
  outcomes : Option (List ContextOutcome) := none
deriving DecidableEq, Repr

/-- JavaScript truthiness of an optional string (null and the empty string
are falsy). -/
def jsTruthy : Option String → Bool
  | some s => s ≠ ""
  | none => false

/-- JavaScript a-or-b on an optional string: the string when truthy,
otherwise the default. -/
def jsOrStr : Option String → String → String
  | some s, d => if s = "" then d else s
  | none, d => d

/-- JavaScript a-or-b on an optional number (0 and null are falsy). -/
def jsOrInt : Option Int → Int → Int
  | some n, d => if n = 0 then d else n
  | none, d => d

/-- The machine-generated values consumed by one call of the factory
functions: the current timestamp and the fresh random identifiers. -/
structure Fresh where
  now : String
  newId : String
  sessionUuid : String
  requestUuid : String
deriving DecidableEq, Repr

/-- createContext from index.ts. The object literal lists the defaults
first, then spreads the options over them, then writes rootContextId one
more time; a field of the result therefore equals the options value
whenever the options carry that key, and the listed default otherwise. -/
def createContext (fresh : Fresh) (chittyId : String) (type : String)
    (options : ContextOptions) : ChittyContext :=
  let now := fresh.now
  let id := fresh.newId
  let baseDepth : Int :=
    if jsTruthy options.parentContextId then jsOrInt options.depth 0 + 1 else 0
  let baseSessionId := jsOrStr options.sessionId fresh.sessionUuid
  let baseRequestId := jsOrStr options.requestId fresh.requestUuid
  let baseSource := jsOrStr options.source "unknown"
  let rootFallback : Option String :=
    if jsTruthy options.parentContextId then none else some id
  { id := options.id.getD id
    chittyId := options.chittyId.getD chittyId
    type := options.type.getD type
    status := options.status.getD "active"
    grade := options.grade.getD .C
    trustScore := options.trustScore.getD 50
    createdAt := options.createdAt.getD now
    updatedAt := options.updatedAt.getD now
    expiresAt := options.expiresAt
    parentContextId := options.parentContextId
    rootContextId :=
      match options.rootContextId with
      | some r => if r = "" then rootFallback else some r
      | none => rootFallback
    depth := options.depth.getD baseDepth
    sessionId := options.sessionId.getD baseSessionId
    requestId := options.requestId.getD baseRequestId
    dnaFingerprint := options.dnaFingerprint
    preferences := options.preferences
    source := options.source.getD baseSource
    userAgent := options.userAgent
    ipHash := options.ipHash
    tags := options.tags
    outcomes := options.outcomes.getD [] }

/-- createChildContext from index.ts: createContext on the parent identity
with the inheritance keys listed before the caller options spread. -/
def createChildContext (fresh : Fresh) (parent : ChittyContext) (type : String)
    (options : ContextOptions) : ChittyContext :=
  createContext fresh parent.chittyId type
    { options with
      parentContextId := some (options.parentContextId.getD parent.id)
      rootContextId := some (options.rootContextId.getD (jsOrStr parent.rootContextId parent.id))
      sessionId := some (options.sessionId.getD parent.sessionId)
      depth := some (options.depth.getD (parent.depth + 1))
      dnaFingerprint :=
        match options.dnaFingerprint with
        | some d => some d
        | none => parent.dnaFingerprint
      preferences :=
        match options.preferences with
        | some p => some p
        | none => parent.preferences }

/-- The fields of an outcome before it is stamped
(Omit of ContextOutcome without id and timestamp). -/
structure OutcomeInput where
  type : String
  action : String
  resource : String
  details : Option String := none
  scoreImpact : Int
deriving DecidableEq, Repr

/-- The machine-generated values consumed by one recordOutcome call: the
fresh outcome id and the two timestamp reads. -/
structure Stamp where
  newId : String
  stampTime : String
  updateTime : String
deriving DecidableEq, Repr

/-- The stamped outcome built at the top of recordOutcome. -/
def stampOutcome (st : Stamp) (oc : OutcomeInput) : ContextOutcome :=
  { id := st.newId
    timestamp := st.stampTime
    type := oc.type
    action := oc.action
    resource := oc.resource
    details := oc.details
    scoreImpact := oc.scoreImpact }

/-- recordOutcome from index.ts: stamp the outcome, clamp the new score to
the range 0 to 100, recompute the grade, append the outcome. -/
def recordOutcome (st : Stamp) (ctx : ChittyContext) (outcome : OutcomeInput) :
    ChittyContext :=
  let newOutcome := stampOutcome st outcome
  let newScore : Int := max 0 (min 100 (ctx.trustScore + outcome.scoreImpact))
  let newGrade := calculateGrade newScore
  { ctx with
    trustScore := newScore
    grade := newGrade
    updatedAt := st.updateTime
    outcomes := ctx.outcomes ++ [newOutcome] }

/-- promoteContext from index.ts. -/
def promoteContext (st : Stamp) (ctx : ChittyContext) (reason : String) : ChittyContext :=
  recordOutcome st ctx
    { type := "success", action := "promote", resource := ctx.id
      details := some reason, scoreImpact := 10 }

/-- demoteContext from index.ts. -/
def demoteContext (st : Stamp) (ctx : ChittyContext) (reason : String) : ChittyContext :=
  recordOutcome st ctx
    { type := "warning", action := "demote", resource := ctx.id
      details := some reason, scoreImpact := -10 }

/-- completeContext from index.ts: record the completion outcome, then set
the status. -/
def completeContext (st : Stamp) (ctx : ChittyContext) (success : Bool) : ChittyContext :=
  { recordOutcome st ctx
      { type := if success then "success" else "error"
        action := "complete", resource := ctx.id
        scoreImpact := if success then 5 else -5 } with
    status := if success then "completed" else "failed" }

/-- The invariant claimed for produced contexts: the grade is the threshold
function of the trust score and the trust score lies in the range 0 to 100. -/
abbrev gradeInvariant (c : ChittyContext) : Prop :=
  c.grade = calculateGrade c.trustScore ∧ 0 ≤ c.trustScore ∧ c.trustScore ≤ 100

/-- A fixed supply of machine-generated values for concrete evaluations. -/
def cFresh : Fresh :=
  { now := "2026-01-01T00:00:00.000Z"
    newId := "uuid-ctx-1"
    sessionUuid := "uuid-sess-1"
    requestUuid := "uuid-req-1" }

/-- The well-known system identity constant of index.ts. -/
def SYSTEM_CHITTY_ID : String := "01-X-SYS-0000-0-0000-S-X"

/-- Does one list of characters start with another (the pattern is the
second argument)? -/
def listStartsWith : List Char → List Char → Bool
  | _, [] => true
  | [], _ :: _ => false
  | c :: s, p :: ps => c = p && listStartsWith s ps

/-- The split of a character list on the dash separator, with the
semantics of the JavaScript String.split method on a single character. -/
def splitDash : List Char → List (List Char)
  | [] => [[]]
  | '-' :: rest => [] :: splitDash rest
  | c :: rest =>
    match splitDash rest with
    | [] => [[c]]
    | g :: gs => (c :: g) :: gs

/-- Two decimal digits, the shape tested on segment 0 of an identity. -/
def twoDigits (l : List Char) : Bool :=
  l.length = 2 && l.all Char.isDigit

/-- A single uppercase letter, the shape tested on segment 1 of an
identity. -/
def upperLetter (l : List Char) : Bool :=
  l.length = 1 && l.all (fun c => decide ('A' ≤ c) && decide (c ≤ 'Z'))

/-- validateChittyId from index.ts: non-empty, at least four dash-separated
segments, segment 0 is two digits, segment 1 is one uppercase letter. -/
def validateChittyId (id : String) : Bool :=
  if id = "" then false
  else
    let parts := splitDash id.toList
    if parts.length < 4 then false
    else twoDigits (parts.getD 0 []) && upperLetter (parts.getD 1 [])

/-- The inbound request as seen by this runtime: the headers it reads and
the path. A missing header is none; a header can be the empty string. -/
structure Request where
  path : String := "/"
  xChittyId : Option String := none
  authorization : Option String := none
  xSessionId : Option String := none
  userAgent : Option String := none
  cfConnectingIP : Option String := none
deriving DecidableEq, Repr

/-- The parsed JSON request body, reduced to the one field the extraction
reads. -/
structure RequestBody where
  chittyId : Option String := none
deriving DecidableEq, Repr

/-- The body step of extractChittyId: return the body identity field when
it is truthy and valid, else null. -/
def extractFromBody (body : Option RequestBody) : Option String :=
  match body with
  | some b =>
    match b.chittyId with
    | some c =>
      match decide (c ≠ "") && validateChittyId c with
      | true => some c
      | false => none
    | none => none
  | none => none

/-- The bearer-token step of extractChittyId: when the Authorization header
starts with the bearer marker, validate the token after it; fall through
to the body step otherwise. -/
def extractFromAuth (req : Request) (body : Option RequestBody) : Option String :=
  match req.authorization with
  | some a =>
    match listStartsWith a.toList "Bearer ".toList with
    | true =>
      match validateChittyId (String.mk (a.toList.drop 7)) with
      | true => some (String.mk (a.toList.drop 7))
      | false => extractFromBody body
    | false => extractFromBody body
  | none => extractFromBody body

/-- extractChittyId from index.ts: the dedicated identity header first,
then the bearer token, then the body field; null when none is valid. -/
def extractChittyId (req : Request) (body : Option RequestBody) : Option String :=
  match req.xChittyId with
  | some h =>
    match decide (h ≠ "") && validateChittyId h with
    | true => some h
    | false => extractFromAuth req body
  | none => extractFromAuth req body

/-- The base64 alphabet used by btoa. -/
def b64Alphabet : List Char :=
  "ABCDEFGHIJKLMNOPQRSTUVWXYZabcdefghijklmnopqrstuvwxyz0123456789+/".toList

/-- The base64 character of a six-bit value. -/
def b64Char (n : Nat) : Char := b64Alphabet.getD n 'A'

/-- base64 encoding of a byte list with padding, as btoa produces. -/
def btoaBytes : List Nat → List Char
  | [] => []
  | [a] => [b64Char (a / 4), b64Char (a % 4 * 16), '=', '=']
  | [a, b] => [b64Char (a / 4), b64Char (a % 4 * 16 + b / 16), b64Char (b % 16 * 4), '=']
  | a :: b :: c :: rest =>
    b64Char (a / 4) :: b64Char (a % 4 * 16 + b / 16) ::
      b64Char (b % 16 * 4 + c / 64) :: b64Char (c % 64) :: btoaBytes rest

/-- btoa on a string of Latin-1 code points. -/
def btoa (s : String) : String :=
  String.mk (btoaBytes (s.toList.map Char.toNat))

/-- The six-bit value of a base64 character. -/
def b64Val (c : Char) : Nat :=
  if decide ('A' ≤ c) && decide (c ≤ 'Z') then c.toNat - 65
  else if decide ('a' ≤ c) && decide (c ≤ 'z') then c.toNat - 97 + 26
  else if decide ('0' ≤ c) && decide (c ≤ '9') then c.toNat - 48 + 52
  else if c = '+' then 62
  else if c = '/' then 63
  else 0

/-- base64 decoding of a character list with padding, as atob performs. -/
def atobChars : List Char → List Nat
  | a :: b :: '=' :: '=' :: [] => [b64Val a * 4 + b64Val b / 16]
  | a :: b :: c :: '=' :: [] =>
    [b64Val a * 4 + b64Val b / 16, b64Val b % 16 * 16 + b64Val c / 4]
  | a :: b :: c :: d :: rest =>
    (b64Val a * 4 + b64Val b / 16) :: (b64Val b % 16 * 16 + b64Val c / 4) ::
      ((b64Val c % 4 * 64 + b64Val d) :: atobChars rest)
  | _ => []

/-- atob, the inverse decoding available to any holder of a btoa value. -/
def atob (s : String) : String :=
  String.mk ((atobChars s.toList).map Char.ofNat)

/-- hashIp from index.ts: undefined on a missing or empty address, else
btoa of the address truncated to its first twelve characters. -/
def hashIp (ip : Option String) : Option String :=
  match ip with
  | none => none
  | some s => if s = "" then none else some (String.mk ((btoa s).toList.take 12))

/-- createFromRequest from index.ts: createContext with request-derived
defaults listed before the caller options spread. -/
def createFromRequest (fresh : Fresh) (chittyId : String) (req : Request)
    (type : String) (options : ContextOptions) : ChittyContext :=
  createContext fresh chittyId type
    { options with
      sessionId := some (options.sessionId.getD (jsOrStr req.xSessionId fresh.sessionUuid))
      requestId := some (options.requestId.getD fresh.requestUuid)
      source := some (options.source.getD "api")
      userAgent :=
        match options.userAgent with
        | some u => some u
        | none =>
          match req.userAgent with
          | some u => if u = "" then none else some u
          | none => none
      ipHash :=
        match options.ipHash with
        | some h => some h
        | none => hashIp req.cfConnectingIP }

/-- The storage environment of saveContext: whether a put to a given key
succeeds, whether the task channel binding is configured, and whether a
send on it succeeds. -/
structure SaveEnv where
  kvPutOk : String → Bool
  hasTasks : Bool
  sendOk : Bool

/-- One observable effect of a saveContext run. -/
inductive SaveEffect where
  | put (key : String)
  | send
deriving DecidableEq, Repr

/-- An awaited key-value put: either the accumulated effect trace grows by
this key, or the store rejects and the whole operation throws. -/
def kvPut (env : SaveEnv) (key : String) (acc : List SaveEffect) :
    Except String (List SaveEffect) :=
  match env.kvPutOk key with
  | true => .ok (acc ++ [.put key])
  | false => .error "kv put failed"

/-- saveContext from index.ts: the primary record, the three index keys,
the conditional active marker, then the unguarded queue send. Every await
that throws propagates out of the function. -/
def saveContext (env : SaveEnv) (ctx : ChittyContext) :
    Except String (List SaveEffect) :=
  match kvPut env ("ctx:" ++ ctx.id) [] with
  | .error e => .error e
  | .ok acc1 =>
  match kvPut env ("ctx:chitty:" ++ ctx.chittyId ++ ":" ++ ctx.id) acc1 with
  | .error e => .error e
  | .ok acc2 =>
  match kvPut env ("ctx:type:" ++ ctx.type ++ ":" ++ ctx.id) acc2 with
  | .error e => .error e
  | .ok acc3 =>
  match kvPut env ("ctx:session:" ++ ctx.sessionId ++ ":" ++ ctx.id) acc3 with
  | .error e => .error e
  | .ok acc4 =>
  match
    (if ctx.status = "active" then
      kvPut env ("ctx:active:" ++ ctx.chittyId ++ ":" ++ ctx.id) acc4
    else .ok acc4) with
  | .error e => .error e
  | .ok acc5 =>
    match env.hasTasks with
    | true =>
      match env.sendOk with
      | true => .ok (acc5 ++ [.send])
      | false => .error "queue send failed"
    | false => .ok acc5

/-- The key-value keys saveContext writes for a context, in order. -/
def saveKeys (ctx : ChittyContext) : List String :=
  ["ctx:" ++ ctx.id,
   "ctx:chitty:" ++ ctx.chittyId ++ ":" ++ ctx.id,
   "ctx:type:" ++ ctx.type ++ ":" ++ ctx.id,
   "ctx:session:" ++ ctx.sessionId ++ ":" ++ ctx.id] ++
  (if ctx.status = "active" then ["ctx:active:" ++ ctx.chittyId ++ ":" ++ ctx.id] else [])

/-- The middleware configuration after the defaults merge. -/
structure MwOptions where
  publicPaths : List String := ["/health", "/api/v1/status", "/.well-known"]
  allowAnonymous : Bool := false
  systemChittyId : String := SYSTEM_CHITTY_ID
  enableAuditLog : Bool := true
  contextType : String := "session"

/-- What the middleware hands back for one request: a response with a
status and the header list the client sees, or a re-raised exception. -/
inductive MwResult where
  | response (status : Nat) (headers : List (String × String))
  | exception (msg : String)
deriving DecidableEq, Repr

/-- Does the header list carry a header of the given name? -/
def headersHave (hs : List (String × String)) (k : String) : Bool :=
  hs.any (fun p => p.1 = k)

/-- The three correlation headers the middleware appends after a normal
downstream completion. -/
def addCorrelation (ctx : ChittyContext) (hs : List (String × String)) :
    List (String × String) :=
  hs ++ [("X-Request-ID", ctx.requestId), ("X-Chitty-ID", ctx.chittyId),
         ("X-Context-ID", ctx.id)]

/-- Does the result of the middleware carry all three correlation
headers? An exception carries none. -/
def carriesCorrelation : MwResult → Bool
  | .response _ hs =>
    headersHave hs "X-Request-ID" && headersHave hs "X-Chitty-ID" &&
      headersHave hs "X-Context-ID"
  | .exception _ => false

/-- The tail of the middleware after a context is attached: run the
downstream handler; on normal completion append the correlation headers,
on an exception re-raise it. The audit emission is fire-and-forget and
does not touch the response. -/
def mwRun (ctx : ChittyContext) (next : Except String (Nat × List (String × String))) :
    MwResult :=
  match next with
  | .ok (st, hs) => .response st (addCorrelation ctx hs)
  | .error e => .exception e

/-- chittyContextMiddleware from the Hono middleware module. The public
path branch returns the downstream result directly; the identity
rejection returns the 401 without reaching the header lines; the normal
branch attaches a request context and runs mwRun. The next argument is
the downstream outcome, the body argument the parsed JSON body when the
parse succeeded. -/
def chittyContextMiddleware (opts : MwOptions) (fresh : Fresh) (req : Request)
    (body : Option RequestBody)
    (next : Except String (Nat × List (String × String))) : MwResult :=
  match opts.publicPaths.any (fun p => listStartsWith req.path.toList p.toList) with
  | true =>
    match next with
    | .ok (st, hs) => .response st hs
    | .error e => .exception e
  | false =>
    match extractChittyId req body with
    | none =>
      match opts.allowAnonymous with
      | true =>
        mwRun (createFromRequest fresh opts.systemChittyId req opts.contextType {}) next
      | false => .response 401 []
    | some cid =>
      mwRun (createFromRequest fresh cid req opts.contextType {}) next

/-- The digit run at the head of a character list, as parseInt consumes
it; none when the first character is not a digit. -/
def parseDigits : List Char → Option Nat → Option Nat
  | [], acc => acc
  | c :: rest, acc =>
    if c.isDigit then parseDigits rest (some ((acc.getD 0) * 10 + (c.toNat - 48)))
    else acc

/-- parseInt with radix ten: leading whitespace, an optional sign, then a
digit run; none models NaN. -/
def jsParseInt (s : String) : Option Int :=
  let chars := s.toList.dropWhile (fun c => c = ' ' || c = '\t' || c = '\n' || c = '\r')
  match chars with
  | '-' :: rest => (parseDigits rest none).map (fun n => -(n : Int))
  | '+' :: rest => (parseDigits rest none).map (fun n => (n : Int))
  | rest => (parseDigits rest none).map (fun n => (n : Int))

/-- The rate-limit middleware configuration. -/
structure RLOptions where
  maxRequests : Int
  windowSeconds : Int
deriving DecidableEq, Repr

/-- The environment the rate limiter sees: whether the key-value store
binding is configured and what a get on a key returns. -/
structure RLEnv where
  hasKV : Bool
  kvGet : String → Option String

/-- One observable key-value effect of the rate limiter. -/
inductive RLEffect where
  | get (key : String)
  | put (key value : String)
deriving DecidableEq, Repr

/-- rateLimitByChittyId from the Hono middleware module, returning the
result handed to the client together with the trace of key-value
operations performed. A missing context, a falsy principal id, or a
missing store all pass straight through to the downstream handler. -/
def rateLimitByChittyId (opts : RLOptions) (env : RLEnv)
    (ctxOpt : Option ChittyContext) (next : MwResult) : MwResult × List RLEffect :=
  match ctxOpt with
  | none => (next, [])
  | some ctx =>
    match decide (ctx.chittyId = "") || !env.hasKV with
    | true => (next, [])
    | false =>
      let key := "ratelimit:" ++ ctx.chittyId
      let current := env.kvGet key
      let count : Option Int :=
        match current with
        | some s => jsParseInt s
        | none => some 0
      let exceeded : Bool :=
        match count with
        | some c => decide (c ≥ opts.maxRequests)
        | none => false
      match exceeded with
      | true => (.response 429 [], [.get key])
      | false =>
        let newValue :=
          match count with
          | some c => toString (c + 1)
          | none => "NaN"
        (next, [.get key, .put key newValue])

/-- A concrete stamp for witnesses. -/
def sampleStamp : Stamp :=
  { newId := "uuid-oc-1", stampTime := "2026-01-01T00:00:01.000Z",
    updateTime := "2026-01-01T00:00:02.000Z" }

/-- A concrete outcome input for witnesses. -/
def sampleOutcome : OutcomeInput :=
  { type := "success", action := "test", resource := "res-1", scoreImpact := 5 }

/-- A concrete context for witnesses. -/
def sampleCtx : ChittyContext :=
  { id := "ctx-1", chittyId := "01-U-TST-0001-0-0000-A-X", type := "session"
    status := "active", grade := .C, trustScore := 50
    createdAt := "2026-01-01T00:00:00.000Z", updatedAt := "2026-01-01T00:00:00.000Z"
    depth := 0, sessionId := "sess-1", requestId := "req-1", source := "api"
    rootContextId := some "ctx-1", outcomes := [] }

/-- A parent whose rootContextId is present but empty. -/
def sampleParentEmptyRoot : ChittyContext :=
  { sampleCtx with id := "p1", rootContextId := some "" }

/-- A parent with an ordinary non-empty rootContextId. -/
def sampleParentRooted : ChittyContext :=
  { sampleCtx with id := "p2", rootContextId := some "root-0", depth := 1 }

/-- A storage environment whose writes succeed but whose queue send
fails. -/
def sendFailEnv : SaveEnv :=
  { kvPutOk := fun _ => true, hasTasks := true, sendOk := false }

/-- A storage environment in which everything succeeds. -/
def allOkEnv : SaveEnv :=
  { kvPutOk := fun _ => true, hasTasks := true, sendOk := true }

/-- A request on a non-public path carrying no identity anywhere. -/
def rejReq : Request := { path := "/api/v1/data" }

/-- A request on a non-public path carrying a valid identity header. -/
def okReq : Request :=
  { path := "/api/v1/data", xChittyId := some "01-U-TST-0001-0-0000-A-X" }

/-- A request carrying both a valid identity header and a differing valid
bearer token. -/
def bothReq : Request :=
  { path := "/api/v1/data", xChittyId := some "01-U-AAA-0001-0-0000-A-X"
    authorization := some "Bearer 02-S-BBB-0002-0-0000-A-X" }

/-- JavaScript truthiness-and-validity of a candidate identity value. -/
def candidateValid : Option String → Bool
  | some s => s ≠ "" && validateChittyId s
  | none => false

/-- Is the Authorization header a bearer header whose token validates? -/
def bearerValid : Option String → Bool
  | some a =>
    listStartsWith a.toList "Bearer ".toList &&
      validateChittyId (String.mk (a.toList.drop 7))
  | none => false

/-- Does the parsed body carry a truthy valid identity field? -/
def bodyValid : Option RequestBody → Bool
  | some b => candidateValid b.chittyId
  | none => false

/-- A rate-limiter environment with no key-value store configured. -/
def noKVEnv : RLEnv := { hasKV := false, kvGet := fun _ => none }

theorem clamp_nonneg (x : Int) : 0 ≤ max 0 (min 100 x) := le_max_left 0 _

theorem clamp_le_hundred (x : Int) : max 0 (min 100 x) ≤ 100 :=
  max_le (by norm_num) (min_le_left 100 x)

/-- Claim C1: recordOutcome returns a context whose trustScore is the sum
clamped to the range 0 to 100, whose grade is recomputed from the new
score, whose outcomes are the old outcomes with the stamped outcome
appended at the end, and in which every field other than trustScore,
grade, updatedAt and outcomes is unchanged; the function is total and
pure. -/
theorem recordOutcome_spec (st : Stamp) (ctx : ChittyContext) (oc : OutcomeInput) :
    (recordOutcome st ctx oc).trustScore
        = max 0 (min 100 (ctx.trustScore + oc.scoreImpact)) ∧
    0 ≤ (recordOutcome st ctx oc).trustScore ∧
    (recordOutcome st ctx oc).trustScore ≤ 100 ∧
    (recordOutcome st ctx oc).grade
        = calculateGrade (recordOutcome st ctx oc).trustScore ∧
    (recordOutcome st ctx oc).outcomes = ctx.outcomes ++ [stampOutcome st oc] ∧
    (recordOutcome st ctx oc).updatedAt = st.updateTime ∧
    (recordOutcome st ctx oc).id = ctx.id ∧
    (recordOutcome st ctx oc).chittyId = ctx.chittyId ∧
    (recordOutcome st ctx oc).type = ctx.type ∧
    (recordOutcome st ctx oc).status = ctx.status ∧
    (recordOutcome st ctx oc).createdAt = ctx.createdAt ∧
    (recordOutcome st ctx oc).expiresAt = ctx.expiresAt ∧
    (recordOutcome st ctx oc).parentContextId = ctx.parentContextId ∧
    (recordOutcome st ctx oc).rootContextId = ctx.rootContextId ∧
    (recordOutcome st ctx oc).depth = ctx.depth ∧
    (recordOutcome st ctx oc).sessionId = ctx.sessionId ∧
    (recordOutcome st ctx oc).requestId = ctx.requestId ∧
    (recordOutcome st ctx oc).dnaFingerprint = ctx.dnaFingerprint ∧
    (recordOutcome st ctx oc).preferences = ctx.preferences ∧
    (recordOutcome st ctx oc).source = ctx.source ∧
    (recordOutcome st ctx oc).userAgent = ctx.userAgent ∧
    (recordOutcome st ctx oc).ipHash = ctx.ipHash ∧
    (recordOutcome st ctx oc).tags = ctx.tags :=
  ⟨rfl, clamp_nonneg _, clamp_le_hundred _, rfl, rfl, rfl, rfl, rfl, rfl, rfl,
   rfl, rfl, rfl, rfl, rfl, rfl, rfl, rfl, rfl, rfl, rfl, rfl, rfl⟩

/-- Claim C2 counterexample: createContext spreads the caller options over
the defaults, so options carrying a trustScore produce a context whose
trustScore is outside the range 0 to 100 and whose grade does not match
the threshold function of it. -/
theorem createContext_invariant_counterexample :
    ¬ gradeInvariant (createContext cFresh "01-U-TST-0001-0-0000-A-X" "session"
        { trustScore := some 200 }) := by decide

theorem gradeInvariant_recordOutcome (st : Stamp) (ctx : ChittyContext)
    (oc : OutcomeInput) : gradeInvariant (recordOutcome st ctx oc) :=
  ⟨rfl, clamp_nonneg _, clamp_le_hundred _⟩

theorem gradeInvariant_createContext (f : Fresh) (cid ty : String)
    (o : ContextOptions) (hT : o.trustScore = none) (hG : o.grade = none) :
    gradeInvariant (createContext f cid ty o) := by
  unfold gradeInvariant createContext
  simp only [hT, hG, Option.getD_none]
  exact ⟨by decide, by decide, by decide⟩

/-- Claim C2 amended: the grade-and-range invariant holds for every
context produced by recordOutcome, promoteContext, demoteContext and
completeContext, and for every context produced by createContext,
createFromRequest and createChildContext whose options do not supply a
trustScore or grade override. -/
theorem gradeInvariant_operations (f : Fresh) (cid ty reason : String)
    (o : ContextOptions) (req : Request) (parent ctx : ChittyContext)
    (st : Stamp) (oc : OutcomeInput) (b : Bool)
    (hT : o.trustScore = none) (hG : o.grade = none) :
    gradeInvariant (createContext f cid ty o) ∧
    gradeInvariant (createFromRequest f cid req ty o) ∧
    gradeInvariant (createChildContext f parent ty o) ∧
    gradeInvariant (recordOutcome st ctx oc) ∧
    gradeInvariant (promoteContext st ctx reason) ∧
    gradeInvariant (demoteContext st ctx reason) ∧
    gradeInvariant (completeContext st ctx b) := by
  refine ⟨gradeInvariant_createContext f cid ty o hT hG, ?_, ?_,
    gradeInvariant_recordOutcome st ctx oc,
    gradeInvariant_recordOutcome st ctx _,
    gradeInvariant_recordOutcome st ctx _,
    gradeInvariant_recordOutcome st ctx _⟩
  · exact gradeInvariant_createContext f cid ty _ hT hG
  · exact gradeInvariant_createContext f parent.chittyId ty _ hT hG

/-- Claim C2 witness: the amended invariant at concrete inputs. -/
theorem gradeInvariant_operations_witness :
    gradeInvariant (createContext cFresh "01-U-TST-0001-0-0000-A-X" "session" {}) :=
  (gradeInvariant_operations cFresh "01-U-TST-0001-0-0000-A-X" "session" "reason"
    {} {} sampleCtx sampleCtx sampleStamp sampleOutcome true rfl rfl).1

/-- Claim C3: calculateGrade is a pure function, monotone in the score
(a higher score never yields a worse grade), matching the thresholds
exactly at the boundary scores, and deterministic. -/
theorem calculateGrade_spec (s t : Int) (h : s ≤ t) :
    (calculateGrade s).rank ≤ (calculateGrade t).rank ∧
    calculateGrade 90 = .A ∧ calculateGrade 89 = .B ∧ calculateGrade 75 = .B ∧
    calculateGrade 74 = .C ∧ calculateGrade 50 = .C ∧ calculateGrade 49 = .D ∧
    calculateGrade 25 = .D ∧ calculateGrade 24 = .F ∧
    calculateGrade s = calculateGrade s := by
  refine ⟨?_, by decide, by decide, by decide, by decide, by decide, by decide,
    by decide, by decide, rfl⟩
  unfold calculateGrade
  split_ifs <;> simp only [Grade.rank] <;> omega

/-- Claim C3 witness: monotonicity applied at the scores 30 and 80. -/
theorem calculateGrade_spec_witness :
    (calculateGrade 30).rank ≤ (calculateGrade 80).rank :=
  (calculateGrade_spec 30 80 (by decide)).1

/-- Claim C4 counterexample: the source computes the child rootContextId
with the JavaScript or operator, so a parent whose rootContextId is
present but equal to the empty string yields a child pointing at the
parent id instead of the parent rootContextId. -/
theorem createChildContext_counterexample :
    sampleParentEmptyRoot.rootContextId = some "" ∧
    (createChildContext cFresh sampleParentEmptyRoot "agent" {}).rootContextId
      = some "p1" ∧
    (createChildContext cFresh sampleParentEmptyRoot "agent" {}).rootContextId
      ≠ sampleParentEmptyRoot.rootContextId := by decide

/-- Claim C4 amended: for a parent with a non-empty id,
createChildContext with no extra options copies chittyId, sessionId,
dnaFingerprint and preferences from the parent, sets parentContextId to
the parent id and depth to the parent depth plus one, and sets
rootContextId to the parent rootContextId when that is present and
non-empty, and to the parent id otherwise. -/
theorem createChildContext_spec (f : Fresh) (parent : ChittyContext) (ty : String)
    (hid : parent.id ≠ "") :
    (createChildContext f parent ty {}).chittyId = parent.chittyId ∧
    (createChildContext f parent ty {}).sessionId = parent.sessionId ∧
    (createChildContext f parent ty {}).dnaFingerprint = parent.dnaFingerprint ∧
    (createChildContext f parent ty {}).preferences = parent.preferences ∧
    (createChildContext f parent ty {}).parentContextId = some parent.id ∧
    (createChildContext f parent ty {}).rootContextId =
      some (match parent.rootContextId with
        | some r => if r = "" then parent.id else r
        | none => parent.id) ∧
    (createChildContext f parent ty {}).depth = parent.depth + 1 := by
  refine ⟨rfl, rfl, rfl, rfl, rfl, ?_, rfl⟩
  unfold createChildContext createContext
  cases hr : parent.rootContextId with
  | none => simp [jsOrStr, hid]
  | some r =>
    by_cases h : r = "" <;> simp [jsOrStr, h, hid]

/-- Claim C4 witness: the amended statement applied to a concrete rooted
parent. -/
theorem createChildContext_spec_witness :
    (createChildContext cFresh sampleParentRooted "agent" {}).depth
      = sampleParentRooted.depth + 1 :=
  (createChildContext_spec cFresh sampleParentRooted "agent" (by decide)).2.2.2.2.2.2

/-- Claim C5 counterexample: the options spread runs after the computed
depth, so a supplied depth is taken verbatim rather than incremented,
and a present but empty parentContextId is falsy, so it yields depth 0
rather than 1. -/
theorem createContext_depth_counterexample :
    (createContext cFresh "01-U-TST-0001-0-0000-A-X" "session"
        { parentContextId := some "p", depth := some 3 }).depth = 3 ∧
    ¬ ((createContext cFresh "01-U-TST-0001-0-0000-A-X" "session"
        { parentContextId := some "p", depth := some 3 }).depth = 3 + 1) ∧
    (createContext cFresh "01-U-TST-0001-0-0000-A-X" "session"
        { parentContextId := some "" }).depth = 0 ∧
    ¬ ((createContext cFresh "01-U-TST-0001-0-0000-A-X" "session"
        { parentContextId := some "" }).depth = 0 + 1) := by decide

/-- Claim C5 amended: the depth of a created context is the depth carried
by the options whenever they carry one (the spread overrides the
computed value); otherwise it is 1 when the options carry a truthy
parentContextId and 0 when they do not. -/
theorem createContext_depth_spec (f : Fresh) (cid ty : String) (o : ContextOptions) :
    (createContext f cid ty o).depth =
      match o.depth with
      | some d => d
      | none => if jsTruthy o.parentContextId then 1 else 0 := by
  unfold createContext
  cases o.depth <;> simp [jsOrInt]

/-- Claim C6 counterexample: the queue send of saveContext is not guarded
by any catch, so an environment whose key-value writes all succeed but
whose send fails makes saveContext itself fail. -/
theorem saveContext_enqueue_counterexample :
    saveContext sendFailEnv sampleCtx = .error "queue send failed" := by
  rfl

/-- Claim C6 amended: with a task channel configured and all key-value
writes succeeding, saveContext enqueues the context-saved notification
after the writes when the send succeeds, and fails with the send error
when it does not: the enqueue failure propagates to the caller. -/
theorem saveContext_spec (env : SaveEnv) (ctx : ChittyContext)
    (hok : ∀ k, env.kvPutOk k = true) (ht : env.hasTasks = true) :
    (env.sendOk = true →
      saveContext env ctx
        = .ok ((saveKeys ctx).map SaveEffect.put ++ [SaveEffect.send])) ∧
    (env.sendOk = false → saveContext env ctx = .error "queue send failed") := by
  constructor <;> intro hsend <;>
    by_cases hact : ctx.status = "active" <;>
      simp [saveContext, kvPut, saveKeys, hok, ht, hsend, hact]

/-- Claim C6 witness: the amended statement in the all-success
environment on a concrete context. -/
theorem saveContext_spec_witness :
    saveContext allOkEnv sampleCtx
      = .ok ((saveKeys sampleCtx).map SaveEffect.put ++ [SaveEffect.send]) :=
  (saveContext_spec allOkEnv sampleCtx (fun _ => rfl) rfl).1 rfl

/-- Claim C7 counterexample: the identity rejection path of the
middleware returns the 401 response before the header lines run, so that
response carries none of the three correlation headers. -/
theorem middleware_headers_counterexample :
    chittyContextMiddleware {} cFresh rejReq none (.ok (200, []))
      = .response 401 [] ∧
    carriesCorrelation (chittyContextMiddleware {} cFresh rejReq none (.ok (200, [])))
      = false := by decide

/-- Claim C7 amended: the middleware attaches the three correlation
headers only on the normal downstream completion of a non-public request
whose identity was extracted; the identity rejection returns a 401
response without them, and a downstream exception is re-raised without a
response. -/
theorem chittyContextMiddleware_spec (opts : MwOptions) (f : Fresh)
    (req req2 : Request) (body body2 : Option RequestBody) (st : Nat)
    (hs : List (String × String)) (e cid : String)
    (hpub : opts.publicPaths.any (fun p => listStartsWith req.path.toList p.toList) = false)
    (hid : extractChittyId req body = some cid)
    (hpub2 : opts.publicPaths.any (fun p => listStartsWith req2.path.toList p.toList) = false)
    (hid2 : extractChittyId req2 body2 = none)
    (hanon : opts.allowAnonymous = false) :
    chittyContextMiddleware opts f req body (.ok (st, hs)) =
      .response st (addCorrelation (createFromRequest f cid req opts.contextType {}) hs) ∧
    carriesCorrelation (chittyContextMiddleware opts f req body (.ok (st, hs))) = true ∧
    chittyContextMiddleware opts f req body (.error e) = .exception e ∧
    chittyContextMiddleware opts f req2 body2 (.ok (st, hs)) = .response 401 [] ∧
    carriesCorrelation (chittyContextMiddleware opts f req2 body2 (.ok (st, hs)))
      = false := by
  have hcar : ∀ ctx : ChittyContext,
      carriesCorrelation (.response st (addCorrelation ctx hs)) = true := by
    intro ctx
    simp [carriesCorrelation, addCorrelation, headersHave]
  refine ⟨?_, ?_, ?_, ?_, ?_⟩
  · unfold chittyContextMiddleware
    rw [hpub, hid]
    rfl
  · unfold chittyContextMiddleware
    rw [hpub, hid]
    exact hcar _
  · unfold chittyContextMiddleware
    rw [hpub, hid]
    rfl
  · unfold chittyContextMiddleware
    rw [hpub2, hid2, hanon]
  · unfold chittyContextMiddleware
    rw [hpub2, hid2, hanon]
    rfl

/-- Claim C7 witness: the amended statement on a concrete accepted request
and a concrete rejected request. -/
theorem chittyContextMiddleware_spec_witness :
    carriesCorrelation (chittyContextMiddleware {} cFresh okReq none (.ok (200, [])))
      = true :=
  (chittyContextMiddleware_spec {} cFresh okReq rejReq none none 200 [] "boom"
    "01-U-TST-0001-0-0000-A-X" (by decide) (by decide) (by decide) (by decide)
    rfl).2.1

/-- Claim C8: extractChittyId checks the dedicated identity header first,
then the bearer token of the Authorization header, then the body field,
returning the first valid match and null when none is valid; in
particular a valid identity header wins over a differing valid bearer
token, and when the header and bearer sources are both invalid a valid
body field is returned. -/
theorem extractChittyId_spec (req : Request) (body : Option RequestBody) :
    (∀ h, req.xChittyId = some h → h ≠ "" → validateChittyId h = true →
        extractChittyId req body = some h) ∧
    (candidateValid req.xChittyId = false → ∀ a, req.authorization = some a →
        listStartsWith a.toList "Bearer ".toList = true →
        validateChittyId (String.mk (a.toList.drop 7)) = true →
        extractChittyId req body = some (String.mk (a.toList.drop 7))) ∧
    (candidateValid req.xChittyId = false → bearerValid req.authorization = false →
        ∀ b c, body = some b → b.chittyId = some c → c ≠ "" →
        validateChittyId c = true → extractChittyId req body = some c) ∧
    (candidateValid req.xChittyId = false → bearerValid req.authorization = false →
        bodyValid body = false → extractChittyId req body = none) := by
  refine ⟨?_, ?_, ?_, ?_⟩
  · intro h hh hne hv
    have hb : (decide (h ≠ "") && validateChittyId h) = true := by
      simp [hne, hv]
    simp only [extractChittyId, hh]
    rw [hb]
  · intro hhead a ha hstart hv
    have hauth : extractFromAuth req body = some (String.mk (a.toList.drop 7)) := by
      simp only [extractFromAuth, ha]
      rw [hstart, hv]
    cases hx : req.xChittyId with
    | none =>
      simp only [extractChittyId, hx]
      exact hauth
    | some s =>
      have hsf : (decide (s ≠ "") && validateChittyId s) = false := by
        simpa [candidateValid, hx] using hhead
      simp only [extractChittyId, hx]
      rw [hsf]
      exact hauth
  · intro hhead hbear b c hb hc hne hv
    have hbodysome : extractFromBody body = some c := by
      have hcv : (decide (c ≠ "") && validateChittyId c) = true := by
        simp [hne, hv]
      rw [hb]
      simp only [extractFromBody, hc]
      rw [hcv]
    have hfall : extractFromAuth req body = extractFromBody body := by
      cases ha : req.authorization with
      | none => simp only [extractFromAuth, ha]
      | some a =>
        have h2 := hbear
        rw [ha] at h2
        cases hstart : listStartsWith a.toList "Bearer ".toList with
        | false =>
          simp only [extractFromAuth, ha]
          rw [hstart]
        | true =>
          have hvf : validateChittyId (String.mk (a.toList.drop 7)) = false := by
            have h3 := h2
            simp only [bearerValid] at h3
            rw [hstart] at h3
            simpa using h3
          simp only [extractFromAuth, ha]
          rw [hstart, hvf]
    cases hx : req.xChittyId with
    | none =>
      simp only [extractChittyId, hx]
      rw [hfall]
      exact hbodysome
    | some s =>
      have hsf : (decide (s ≠ "") && validateChittyId s) = false := by
        simpa [candidateValid, hx] using hhead
      simp only [extractChittyId, hx]
      rw [hsf, hfall]
      exact hbodysome
  · intro hhead hbear hbody
    have hbodynone : extractFromBody body = none := by
      cases hb : body with
      | none => rfl
      | some b =>
        cases hc : b.chittyId with
        | none => simp only [extractFromBody, hc]
        | some c =>
          have hcf : (decide (c ≠ "") && validateChittyId c) = false := by
            have h2 := hbody
            rw [hb] at h2
            simpa [bodyValid, candidateValid, hc] using h2
          simp only [extractFromBody, hc]
          rw [hcf]
    have hauthnone : extractFromAuth req body = none := by
      cases ha : req.authorization with
      | none =>
        simp only [extractFromAuth, ha]
        exact hbodynone
      | some a =>
        have h2 := hbear
        rw [ha] at h2
        cases hstart : listStartsWith a.toList "Bearer ".toList with
        | false =>
          simp only [extractFromAuth, ha]
          rw [hstart]
          exact hbodynone
        | true =>
          have hvf : validateChittyId (String.mk (a.toList.drop 7)) = false := by
            have h3 := h2
            simp only [bearerValid] at h3
            rw [hstart] at h3
            simpa using h3
          simp only [extractFromAuth, ha]
          rw [hstart, hvf]
          exact hbodynone
    cases hx : req.xChittyId with
    | none =>
      simp only [extractChittyId, hx]
      exact hauthnone
    | some s =>
      have hsf : (decide (s ≠ "") && validateChittyId s) = false := by
        simpa [candidateValid, hx] using hhead
      simp only [extractChittyId, hx]
      rw [hsf]
      exact hauthnone

/-- Claim C8 witness: the header value wins on a concrete request carrying
both a valid identity header and a differing valid bearer token, and the
body field is returned on a concrete request with no header and no
bearer token. -/
theorem extractChittyId_spec_witness :
    extractChittyId bothReq none = some "01-U-AAA-0001-0-0000-A-X" ∧
    extractChittyId rejReq (some { chittyId := some "03-D-CCC-0003-0-0000-A-X" })
      = some "03-D-CCC-0003-0-0000-A-X" :=
  ⟨(extractChittyId_spec bothReq none).1 "01-U-AAA-0001-0-0000-A-X" rfl
    (by decide) (by decide),
   (extractChittyId_spec rejReq
      (some { chittyId := some "03-D-CCC-0003-0-0000-A-X" })).2.2.1
    (by decide) (by decide) { chittyId := some "03-D-CCC-0003-0-0000-A-X" }
    "03-D-CCC-0003-0-0000-A-X" rfl rfl (by decide) (by decide)⟩

/-- Claim C9 (code bug): the stored ipHash is btoa of the client address
truncated to twelve characters, a reversible encoding rather than a
one-way hash. The address Vm0wd2QyUXlV is a fixed point, so the stored
value equals the raw address, and any address of at most nine bytes is
fully recoverable with atob; only the absence case behaves as claimed. -/
theorem hashIp_not_one_way :
    hashIp (some "Vm0wd2QyUXlV") = some "Vm0wd2QyUXlV" ∧
    atob ((hashIp (some "1.2.3.4")).getD "") = "1.2.3.4" ∧
    atob ((hashIp (some "10.0.0.1")).getD "") = "10.0.0.1" ∧
    (createFromRequest cFresh "01-U-TST-0001-0-0000-A-X"
        { path := "/api/v1/data", cfConnectingIP := some "Vm0wd2QyUXlV" }
        "session" {}).ipHash = some "Vm0wd2QyUXlV" ∧
    hashIp none = none := by decide

/-- Claim C10: the rate limiter fails open: with no context attached or no
key-value store configured it hands the request to the downstream
handler unchanged, performing no counter read or write and rejecting
nothing. -/
theorem rateLimitByChittyId_fails_open (opts : RLOptions) (env : RLEnv)
    (ctxOpt : Option ChittyContext) (next : MwResult)
    (h : ctxOpt = none ∨ env.hasKV = false) :
    rateLimitByChittyId opts env ctxOpt next = (next, []) := by
  rcases h with h | h
  · rw [h]
    rfl
  · cases ctxOpt with
    | none => rfl
    | some ctx =>
      have hcond : (decide (ctx.chittyId = "") || !env.hasKV) = true := by
        rw [h]
        simp
      simp only [rateLimitByChittyId]
      rw [hcond]

/-- Claim C10 witness: the limiter passes a concrete request through when
no store is configured. -/
theorem rateLimitByChittyId_fails_open_witness :
    rateLimitByChittyId { maxRequests := 3, windowSeconds := 60 } noKVEnv
      (some sampleCtx) (.response 200 []) = (.response 200 [], []) :=
  rateLimitByChittyId_fails_open { maxRequests := 3, windowSeconds := 60 } noKVEnv
    (some sampleCtx) (.response 200 []) (Or.inr rfl)

end Chitty
